import Mathlib

/-!
Verification of the gesix-data-quality pipeline core
(`backend/main.py`, `backend/src/qa/validator.py`,
`backend/src/remediation/cleaner.py`, `backend/src/ingestion/converter.py`).

The pandas data frames flowing through the pipeline are modelled as lists of
typed columns: every column is either of object/string dtype (cells are
`Option String`, `none` standing for NaN) or of numeric dtype (cells are
`Option Rat`, `none` standing for NaN).  This matches the dtype discipline of
the repository: `unify_to_parquet` coerces every cell to `str` before
persisting, and the only numeric columns afterwards are the ones produced by
`pd.to_numeric` in the cleaner.  Library calls (`pd.to_numeric`,
`pd.to_datetime`, Great Expectations result percentages) are embedded by
executable functions reproducing their documented behaviour on the value
shapes that occur here.
-/

namespace Gesix

/-- A cell value as it appears in a row (used for whole-row comparison,
    mirroring how pandas compares rows across heterogeneous dtypes;
    like pandas `duplicated`, two NaN cells compare equal). -/
inductive CellV where
  | vs (v : Option String)
  | vn (v : Option Rat)
deriving DecidableEq

/-- A pandas column: object/string dtype or numeric dtype.  `none` is NaN. -/
inductive Col where
  | str (name : String) (cells : List (Option String))
  | num (name : String) (cells : List (Option Rat))
deriving DecidableEq

namespace Col

def name : Col → String
  | .str n _ => n
  | .num n _ => n

def length : Col → Nat
  | .str _ cs => cs.length
  | .num _ cs => cs.length

def isNum : Col → Bool
  | .str _ _ => false
  | .num _ _ => true

/-- Number of NaN cells in the column. -/
def nullCount : Col → Nat
  | .str _ cs => cs.countP (fun o => o.isNone)
  | .num _ cs => cs.countP (fun o => o.isNone)

/-- The cell at row position `i` (as a row value). -/
def cellAt : Col → Nat → CellV
  | .str _ cs, i => .vs (cs.getD i none)
  | .num _ cs, i => .vn (cs.getD i none)

/-- Is the cell at row position `i` NaN? -/
def isNullAt (c : Col) (i : Nat) : Bool :=
  match c with
  | .str _ cs => (cs.getD i none).isNone
  | .num _ cs => (cs.getD i none).isNone

/-- All cells NaN? -/
def allNull : Col → Bool
  | .str _ cs => cs.all (fun o => o.isNone)
  | .num _ cs => cs.all (fun o => o.isNone)

/-- Keep exactly the rows at the listed positions, in list order
    (pandas row selection by positional index). -/
def selectRows : Col → List Nat → Col
  | .str n cs, idxs => .str n (idxs.map (fun i => cs.getD i none))
  | .num n cs, idxs => .num n (idxs.map (fun i => cs.getD i none))

end Col

/-- A data frame: an ordered list of columns.  All columns of a well-formed
    frame have the same length. -/
structure Table where
  cols : List Col
deriving DecidableEq

namespace Table

/-- Row count (pandas `len(df)`): the length of the first column. -/
def nrows (t : Table) : Nat := ((t.cols.head?).map Col.length).getD 0

def ncols (t : Table) : Nat := t.cols.length

def hasCol (t : Table) (n : String) : Bool := t.cols.any (fun c => c.name == n)

def findCol (t : Table) (n : String) : Option Col :=
  t.cols.find? (fun c => c.name == n)

/-- The row at position `i`, as the list of its cells over all columns. -/
def rowAt (t : Table) (i : Nat) : List CellV := t.cols.map (fun c => c.cellAt i)

/-- All rows in order. -/
def rows (t : Table) : List (List CellV) := (List.range t.nrows).map t.rowAt

/-- Keep exactly the rows at the listed positions, in list order. -/
def selectRows (t : Table) (idxs : List Nat) : Table :=
  ⟨t.cols.map (fun c => c.selectRows idxs)⟩

/-- All frame columns have the row count's length. -/
def wf (t : Table) : Prop := ∀ c ∈ t.cols, c.length = t.nrows

instance : DecidablePred Table.wf := fun t =>
  decidable_of_iff (∀ c ∈ t.cols, c.length = t.nrows) Iff.rfl

end Table

/-! ### Rounding

`round(x, 2)` in CPython rounds half to even.  Exact rationals stand in for
the floats of the implementation. -/

/-- Round a rational to the nearest integer, ties to the even neighbour
    (CPython `round`). -/
def rhe (q : Rat) : Int :=
  if q - ⌊q⌋ = 1/2 then (if (⌊q⌋ : Int) % 2 = 0 then ⌊q⌋ else ⌊q⌋ + 1)
  else round q

/-- Python `round(x, 2)`. -/
def round2 (q : Rat) : Rat := (rhe (100 * q) : Rat) / 100

/-! ### The Scorer (`DataValidator` in `qa/validator.py`) -/

/-- A Great Expectations `unexpected_percent`: the share of unexpected
    elements among `total` counted elements, as a percentage. -/
def pctOf (bad total : Nat) : Rat := 100 * (bad : Rat) / (total : Rat)

/-- GE `expect_column_values_to_not_be_null`: percentage of non-null cells
    in the column.  (`unexpected_percent` counts null cells over all rows.) -/
def notNullScore (c : Col) : Rat := 100 - pctOf c.nullCount c.length

/-- Per-column completeness scores: every column contributes its
    non-null percentage (validator.py, dimension 1). -/
def completenessScores (t : Table) : List Rat := t.cols.map notNullScore

/-- Accuracy score of one numeric column (validator.py, dimension 2):
    the share of values within `mean ± 3·std` among the non-null values,
    where `std` is the sample standard deviation.  `x ∈ [mean−3σ, mean+3σ]`
    is expressed rationally as `(x−mean)² ≤ 9·var`. -/
def accuracyScoreOfVals (vals : List Rat) : Rat :=
  let k := vals.length
  let mean := vals.sum / (k : Rat)
  let svar := (vals.map (fun x => (x - mean) ^ 2)).sum / ((k : Rat) - 1)
  let out := vals.countP (fun x => decide ((x - mean) ^ 2 > 9 * svar))
  100 - pctOf out k

/-- Does the numeric column pass the guards `total_rows > 1`,
    `pd.notna(mean)`, `pd.notna(std)`, `std != 0`?  The pandas mean of a
    column is NaN iff it has no non-null value, the sample std is NaN iff it
    has fewer than two, and `std = 0` iff the sample variance is `0`. -/
def accuracyApplies (n : Nat) (vals : List Rat) : Bool :=
  let k := vals.length
  let mean := vals.sum / (k : Rat)
  let svar := (vals.map (fun x => (x - mean) ^ 2)).sum / ((k : Rat) - 1)
  decide (1 < n) && decide (2 ≤ k) && !decide (svar = 0)

/-- Per-numeric-column accuracy scores, in column order. -/
def accuracyScores (t : Table) : List Rat :=
  t.cols.filterMap (fun c =>
    match c with
    | .num _ cs =>
        let vals := cs.filterMap id
        if accuracyApplies t.nrows vals then some (accuracyScoreOfVals vals) else none
    | .str _ _ => none)

/-- Per-column validity scores (validator.py, dimension 3): numeric columns
    are checked with `expect_column_values_to_be_of_type("int"/"float")` and
    object columns with type `"str"`; in the typed column model a numeric
    column always has numeric dtype and an object column holds only strings
    and nulls, so each check succeeds and contributes `100`.  The code
    appends the numeric columns' scores first, then the text columns'. -/
def validityScores (t : Table) : List Rat :=
  (t.cols.filterMap (fun c => if c.isNum then some (100 : Rat) else none)) ++
  (t.cols.filterMap (fun c => if c.isNum then none else some (100 : Rat)))

/-! String primitives.  The embedding uses structurally recursive
    character-list implementations of Python's `strip`, `lower`,
    `splitlines`, single-character `replace` and bounded `read`, so that
    every definition evaluates by kernel reduction on concrete input. -/

/-- Python `str.strip()`: drop leading and trailing whitespace. -/
def pyStrip (s : String) : String :=
  ⟨((s.data.dropWhile Char.isWhitespace).reverse.dropWhile Char.isWhitespace).reverse⟩

/-- Python `str.lower()`. -/
def lowerStr (s : String) : String := ⟨s.data.map Char.toLower⟩

/-- The first `n` characters of a text file (`f.read(n)` in text mode). -/
def takeChars (n : Nat) (s : String) : String := ⟨s.data.take n⟩

/-- Python `str.replace(" ", "_")`. -/
def replaceSpace (s : String) : String :=
  ⟨s.data.map (fun c => if c == ' ' then '_' else c)⟩

/-- Split a character list at newlines (Python `str.splitlines` for the
    line endings this pipeline sees; a carriage return is removed later by
    the per-line strip). -/
def splitNL : List Char → List (List Char)
  | [] => [[]]
  | '\n' :: rest => [] :: splitNL rest
  | c :: rest =>
      match splitNL rest with
      | [] => [[c]]
      | h :: t => (c :: h) :: t

def splitLines (s : String) : List String := (splitNL s.data).map (fun l => ⟨l⟩)

/-- Column names treated as time-like (shared by validator and cleaner):
    the lowered name contains `date`, `time`, `timestamp` or `_at`. -/
def strContainsSub (hay needle : String) : Bool :=
  let h := hay.toList
  let n := needle.toList
  (List.range (h.length + 1)).any (fun i => n.isPrefixOf (h.drop i))

def isDateName (n : String) : Bool :=
  ["date", "time", "timestamp", "_at"].any (fun tok => strContainsSub (lowerStr n) tok)

/-- GE `expect_column_values_to_be_dateutil_parseable` element test on a string
    cell.  The embedding accepts the `YYYY-MM-DD` / `YYYY-MM-DD HH:MM:SS`
    shapes (with `T` also accepted as separator) that this pipeline
    produces; the precise dateutil grammar is wider but no claim depends
    on its exact extent. -/
def digitsOk (l : List Char) : Bool := l.all Char.isDigit

def twoDigits (a b : Char) (lo hi : Nat) : Bool :=
  a.isDigit && b.isDigit &&
    (let v := 10 * (a.toNat - '0'.toNat) + (b.toNat - '0'.toNat)
     decide (lo ≤ v) && decide (v ≤ hi))

def dateutilParseable (s : String) : Bool :=
  match (pyStrip s).data with
  | [y1, y2, y3, y4, '-', m1, m2, '-', d1, d2] =>
      digitsOk [y1, y2, y3, y4] && twoDigits m1 m2 1 12 && twoDigits d1 d2 1 31
  | [y1, y2, y3, y4, '-', m1, m2, '-', d1, d2, sep, h1, h2, ':', n1, n2, ':', s1, s2] =>
      (sep == ' ' || sep == 'T') &&
      digitsOk [y1, y2, y3, y4] && twoDigits m1 m2 1 12 && twoDigits d1 d2 1 31 &&
      twoDigits h1 h2 0 23 && twoDigits n1 n2 0 59 && twoDigits s1 s2 0 59
  | _ => false

/-- Consistency score of one time-like column (validator.py, dimension 4):
    the parseable share of the non-null values.  On a numeric column the
    per-element `dateutil.parser.parse` call fails for every value.
    A column with no non-null value scores 100 (no counted element). -/
def consistencyScoreCol (c : Col) : Rat :=
  match c with
  | .str _ cs =>
      let vals := cs.filterMap id
      100 - pctOf (vals.countP (fun s => !dateutilParseable s)) vals.length
  | .num _ cs =>
      let vals := cs.filterMap id
      100 - pctOf vals.length vals.length

def consistencyScores (t : Table) : List Rat :=
  (t.cols.filter (fun c => isDateName c.name)).map consistencyScoreCol

/-- GE `expect_compound_columns_to_be_unique` over all columns (validator.py,
    dimension 5): a row is unexpected when its full tuple of cells occurs
    more than once in the frame. -/
def dupAllCount (t : Table) : Nat :=
  (t.rows).countP (fun r => decide (2 ≤ (t.rows).countP (fun r2 => decide (r2 = r))))

def uniquenessScore (t : Table) : Rat :=
  if 0 < t.nrows then ((t.nrows : Rat) - (dupAllCount t : Rat)) / (t.nrows : Rat) * 100
  else 100

/-- Integrity scores (validator.py, dimension 6): one `expect_column_to_exist`
    check per expected lineage column, scoring 100 when present, else 0. -/
def integrityScores (t : Table) : List Rat :=
  [if t.hasCol "source" then (100 : Rat) else 0,
   if t.hasCol "ingested_at" then (100 : Rat) else 0]

/-- Lineage score (validator.py, dimension 7): non-null share of the
    `source` column, or 0 when the column is absent. -/
def lineageScore (t : Table) : Rat :=
  match t.findCol "source" with
  | some c => 100 - pctOf c.nullCount c.length
  | none => 0

/-- Final per-dimension average: the mean of the collected scores, or 100
    when no metric applied to this frame geometry. -/
def dimAvg (l : List Rat) : Rat := if l.isEmpty then 100 else l.sum / (l.length : Rat)

/-- The seven dimension scores of a quality report. -/
structure Dims where
  completeness : Rat
  accuracy : Rat
  validity : Rat
  consistency : Rat
  uniqueness : Rat
  integrity : Rat
  lineage : Rat
deriving DecidableEq

def zeroDims : Dims :=
  { completeness := 0, accuracy := 0, validity := 0, consistency := 0,
    uniqueness := 0, integrity := 0, lineage := 0 }

/-- Suite `_run_great_expectations_suite`: the seven dimension scores. -/
def suiteScores (t : Table) : Dims :=
  { completeness := dimAvg (completenessScores t)
    accuracy := dimAvg (accuracyScores t)
    validity := dimAvg (validityScores t)
    consistency := dimAvg (consistencyScores t)
    uniqueness := dimAvg [uniquenessScore t]
    integrity := dimAvg (integrityScores t)
    lineage := dimAvg [lineageScore t] }

/-- Pandas `df[df.duplicated(keep='first')].index.tolist()`: positions of rows equal
    to some earlier row. -/
def duplicateIndices (t : Table) : List Nat :=
  (List.range t.nrows).filter
    (fun i => (List.range i).any (fun j => decide (t.rowAt j = t.rowAt i)))

/-- The QualityReport returned by `DataValidator.validate`.  The
    `dimensions` dict holds the rounded scores. -/
structure Report where
  total_records : Nat
  overall_trustability : Rat
  status : String
  dims : Dims
  duplicate_indices : List Nat
  integrity_fail_indices : List Nat
deriving DecidableEq

/-- The dimension scores used by `validate` before rounding:
    `_run_great_expectations_suite` returns `None` on an empty frame (a
    frame with rows but no columns is `df.empty` in pandas), in which case
    every dimension falls back to `0.0`. -/
def rawDims (t : Table) : Dims := if t.ncols = 0 then zeroDims else suiteScores t

def rawDupIdx (t : Table) : List Nat := if t.ncols = 0 then [] else duplicateIndices t

def sumDims (d : Dims) : Rat :=
  d.completeness + d.accuracy + d.validity + d.consistency +
    d.uniqueness + d.integrity + d.lineage

/-- Scorer `DataValidator.validate` on the frame read from the cleaned file. -/
def validate (t : Table) : Report :=
  if t.nrows = 0 then
    { total_records := 0
      overall_trustability := 0
      status := "No Data Found for this period"
      dims := zeroDims
      duplicate_indices := []
      integrity_fail_indices := [] }
  else
    let d := rawDims t
    { total_records := t.nrows
      overall_trustability := round2 (sumDims d / 7)
      status := "Success"
      dims :=
        { completeness := round2 d.completeness
          accuracy := round2 d.accuracy
          validity := round2 d.validity
          consistency := round2 d.consistency
          uniqueness := round2 d.uniqueness
          integrity := round2 d.integrity
          lineage := round2 d.lineage }
      duplicate_indices := rawDupIdx t
      integrity_fail_indices := [] }

/-! ### The Remediator (`DataCleaner` in `remediation/cleaner.py`) -/

/-- The lineage/metadata columns skipped by normalization and coercion. -/
def meta3 : List String := ["source", "ingested_at", "remediation_notes"]

/-- Tokens treated as null after trimming (`cleaner.py`, step 2). -/
def nullTokens : List String := ["", "—", "None", "nan"]

/-- One cell of `df[col].astype(str).str.strip()` followed by the
    null-token `replace`: NaN goes to the string `"nan"` and straight back
    to NaN; a string is trimmed and nulled when it equals a null token. -/
def strNormCell (o : Option String) : Option String :=
  match o with
  | none => none
  | some v => let tv := pyStrip v; if nullTokens.contains tv then none else some tv

/-- String normalization pass (`generic_cleanup`, step 2): applied to every
    object-dtype column outside the metadata trio. -/
def stringNorm (t : Table) : Table :=
  ⟨t.cols.map (fun c =>
    match c with
    | .str n cs => if meta3.contains n then .str n cs else .str n (cs.map strNormCell)
    | .num n cs => .num n cs)⟩

/-- Drop rows that are entirely null (`df.dropna(how='all', axis=0)`). -/
def rowAllNull (t : Table) (i : Nat) : Bool := t.cols.all (fun c => c.isNullAt i)

def dropAllNullRows (t : Table) : Table :=
  t.selectRows ((List.range t.nrows).filter (fun i => !rowAllNull t i))

/-- Drop columns that are entirely null (`df.dropna(how='all', axis=1)`). -/
def dropAllNullCols (t : Table) : Table := ⟨t.cols.filter (fun c => !c.allNull)⟩

/-- Numeral value of a digit list. -/
def natFromDigits (l : List Char) : Nat :=
  l.foldl (fun a c => 10 * a + (c.toNat - '0'.toNat)) 0

/-- Pandas `pd.to_numeric(·, errors='coerce')` on one string: after trimming, an
    optional sign followed by decimal digits with an optional fractional
    part (at least one digit overall).  Other shapes (scientific notation,
    hex, ...) are not produced by this pipeline and coerce to NaN here. -/
def parseNum (s : String) : Option Rat :=
  let cs := (pyStrip s).data
  let sgn : Rat := match cs.head? with | some '-' => -1 | _ => 1
  let cs := match cs.head? with
    | some '-' => cs.drop 1
    | some '+' => cs.drop 1
    | _ => cs
  let ip := cs.takeWhile Char.isDigit
  let rest := cs.drop ip.length
  match rest with
  | [] => if ip.isEmpty then none else some (sgn * (natFromDigits ip : Rat))
  | '.' :: fp =>
      if digitsOk fp && !(ip.isEmpty && fp.isEmpty) then
        some (sgn * ((natFromDigits ip : Rat) +
          (natFromDigits fp : Rat) / ((10 : Rat) ^ fp.length)))
      else none
  | _ => none

/-- Pandas `pd.to_numeric(df[col], errors='coerce')` on an object column. -/
def toNumericStr (cells : List (Option String)) : List (Option Rat) :=
  cells.map (fun o => o.bind parseNum)

def countSome {α : Type} (l : List (Option α)) : Nat := l.countP (fun o => o.isSome)

/-- Numeric-coercion decision for one column (`generic_cleanup`, step 3):
    a non-metadata column is replaced by its coercion when the coercion's
    non-null count exceeds 80% of `len(df)`; on an already numeric column
    `pd.to_numeric` is the identity either way.  (With `len(df) = 0` the
    Python division raises and the `except` keeps the column.) -/
def coerceCol (n : Nat) (c : Col) : Col :=
  match c with
  | .num nm cs => .num nm cs
  | .str nm cs =>
      if meta3.contains nm then .str nm cs
      else
        let parsed := toNumericStr cs
        if 4 * n < 5 * countSome parsed then .num nm parsed else .str nm cs

def numericCoercion (t : Table) : Table := ⟨t.cols.map (coerceCol t.nrows)⟩

/-- Pandas `pd.to_datetime(·, errors='coerce').dt.strftime('%Y-%m-%d %H:%M:%S')` on
    one string cell: the date shapes this pipeline produces are parsed and
    reprinted canonically; anything else becomes NaT and hence NaN. -/
def parseDatetime (s : String) : Option String :=
  match (pyStrip s).data with
  | [y1, y2, y3, y4, '-', m1, m2, '-', d1, d2] =>
      if digitsOk [y1, y2, y3, y4] && twoDigits m1 m2 1 12 && twoDigits d1 d2 1 31 then
        some (String.mk [y1, y2, y3, y4, '-', m1, m2, '-', d1, d2] ++ " 00:00:00")
      else none
  | [y1, y2, y3, y4, '-', m1, m2, '-', d1, d2, sep, h1, h2, ':', n1, n2, ':', s1, s2] =>
      if (sep == ' ' || sep == 'T') &&
          digitsOk [y1, y2, y3, y4] && twoDigits m1 m2 1 12 && twoDigits d1 d2 1 31 &&
          twoDigits h1 h2 0 23 && twoDigits n1 n2 0 59 && twoDigits s1 s2 0 59 then
        some (String.mk [y1, y2, y3, y4, '-', m1, m2, '-', d1, d2] ++ " " ++
              String.mk [h1, h2, ':', n1, n2, ':', s1, s2])
      else none
  | _ => none

/-- Left-pad a numeral with zeros. -/
def padNum (width n : Nat) : String :=
  let s := toString n
  String.mk (List.replicate (width - s.length) '0') ++ s

/-- Civil date from days since the Unix epoch (standard era decomposition,
    as used by datetime libraries). -/
def civilFromDays (days : Int) : Nat × Nat × Nat :=
  let z := days + 719468
  let era := z.fdiv 146097
  let doe := (z.emod 146097).toNat
  let yoe := (doe - doe / 1460 + doe / 36524 - doe / 146096) / 365
  let doy := doe - (365 * yoe + yoe / 4 - yoe / 100)
  let mp := (5 * doy + 2) / 153
  let d := doy - (153 * mp + 2) / 5 + 1
  let m := if mp < 10 then mp + 3 else mp - 9
  let y := (era * 400 + yoe : Int) + (if m ≤ 2 then 1 else 0)
  (y.toNat, m, d)

/-- Pandas `pd.to_datetime` on a float cell interprets it as nanoseconds since the
    epoch (out-of-range values coerce to NaT), and `strftime` prints it to
    the second. -/
def datetimeOfEpochNanos (q : Rat) : Option String :=
  let ns : Int := q.num / (q.den : Int)
  if ns < -(2 ^ 63) ∨ 2 ^ 63 ≤ ns then none
  else
    let secs := ns.fdiv 1000000000
    let days := secs.fdiv 86400
    let sod := (secs.emod 86400).toNat
    let ymd := civilFromDays days
    some (padNum 4 ymd.1 ++ "-" ++ padNum 2 ymd.2.1 ++ "-" ++ padNum 2 ymd.2.2 ++ " " ++
          padNum 2 (sod / 3600) ++ ":" ++ padNum 2 (sod / 60 % 60) ++ ":" ++
          padNum 2 (sod % 60))

/-- Datetime standardization (`generic_cleanup`, step 4): every column whose
    name is time-like, except `ingested_at`, is parsed and reprinted; the
    result is an object column of canonical strings and NaN. -/
def dateStdCol (c : Col) : Col :=
  match c with
  | .str nm cs => .str nm (cs.map (fun o => o.bind parseDatetime))
  | .num nm cs => .str nm (cs.map (fun o => o.bind datetimeOfEpochNanos))

def dateStd (t : Table) : Table :=
  ⟨t.cols.map (fun c =>
    if isDateName c.name && c.name != "ingested_at" then dateStdCol c else c)⟩

/-- Cleaner `DataCleaner.generic_cleanup`. -/
def generic_cleanup (t : Table) : Table :=
  dateStd (numericCoercion (stringNorm (dropAllNullCols (dropAllNullRows t))))

/-- Decimal print of a rational, used only for the defensive
    `astype(str)` of a pre-existing numeric `remediation_notes` column
    (a case the pipeline itself never produces). -/
def ratToStr (q : Rat) : String :=
  if q.den = 1 then toString q.num else toString q

/-- The `handle_missing_values` preamble: ensure `remediation_notes` exists and
    is a string column with NaN filled by the empty string; a missing column
    is appended at the end of the frame. -/
def fillNotesCol (c : Col) : Col :=
  match c with
  | .str n cs =>
      if n == "remediation_notes" then .str n (cs.map (fun o => some (o.getD "")))
      else .str n cs
  | .num n cs =>
      if n == "remediation_notes" then
        .str n (cs.map (fun o => some (match o with | some q => ratToStr q | none => "")))
      else .num n cs

def ensureNotes (t : Table) : Table :=
  if t.hasCol "remediation_notes" then ⟨t.cols.map fillNotesCol⟩
  else ⟨t.cols ++ [.str "remediation_notes" (List.replicate t.nrows (some ""))]⟩

/-- Is the numeric cell at row `i` NaN or exactly 0? -/
def numNullOrZero (c : Col) (i : Nat) : Bool :=
  match c with
  | .num _ cs => match cs.getD i none with | none => true | some q => decide (q = 0)
  | .str _ _ => false

def suspiciousText : String := "Suspicious null or zero value detected; "

/-- The flag applied to a masked row's note: append the suspicious-value
    text unless it is already present. -/
def flagNote (masked : Bool) (o : Option String) : Option String :=
  if masked then
    let s := o.getD ""
    if strContainsSub s "Suspicious null" then some s else some (s ++ suspiciousText)
  else o

/-- Cleaner `DataCleaner.handle_missing_values`: with numeric columns present, a row
    is masked when some numeric cell is NaN or 0; otherwise when some
    non-metadata cell is NaN.  Masked rows get the suspicious-value note. -/
def handleMissing (t : Table) : Table :=
  let t2 := ensureNotes t
  let numCols := t2.cols.filter Col.isNum
  let mask : Nat → Bool := fun i =>
    if numCols.isEmpty then
      let checkCols := t2.cols.filter (fun c => !meta3.contains c.name)
      checkCols.any (fun c => c.isNullAt i)
    else numCols.any (fun c => numNullOrZero c i)
  ⟨t2.cols.map (fun c =>
    match c with
    | .str n cs =>
        if n == "remediation_notes" then
          .str n ((cs.enum).map (fun p => flagNote (mask p.1) p.2))
        else .str n cs
    | .num n cs => .num n cs)⟩

/-- Pandas `df.drop_duplicates(keep='first')`: keep each row whose full cell tuple
    does not equal an earlier row's. -/
def dedupRows (t : Table) : Table :=
  t.selectRows ((List.range t.nrows).filter
    (fun i => !((List.range i).any (fun j => decide (t.rowAt j = t.rowAt i)))))

/-- Cleaner `DataCleaner.run_remediation` on the loaded unified frame: aborts on an
    empty frame (pandas `df.empty`: zero rows or zero columns), otherwise
    bulk cleanup, anomaly flagging, and full-row deduplication. -/
def run_remediation (t : Table) : Option Table :=
  if t.nrows = 0 ∨ t.ncols = 0 then none
  else some (dedupRows (handleMissing (generic_cleanup t)))

/-- Cleaner `DataCleaner.targeted_remediation` on the stored cleaned frame (row
    labels are the positions 0..n-1, as written by `to_parquet(index=False)`)
    and the issue metadata of a prior report: first the listed duplicate
    labels still present are dropped, then the listed integrity labels still
    present in the remainder. -/
def targeted_remediation (t : Table) (dup integ : List Nat) : Table :=
  let idx0 := List.range t.nrows
  let idx1 :=
    if dup.isEmpty then idx0
    else
      let toDrop := dup.filter (fun i => idx0.contains i)
      if toDrop.isEmpty then idx0 else idx0.filter (fun i => !toDrop.contains i)
  let idx2 :=
    if integ.isEmpty then idx1
    else
      let toDrop := integ.filter (fun i => idx1.contains i)
      if toDrop.isEmpty then idx1 else idx1.filter (fun i => !toDrop.contains i)
  t.selectRows idx2

/-- The specification-side description of the targeted pass: keep exactly
    the rows whose label appears in neither index list, verbatim and in
    order. -/
def keepUnlistedRows (t : Table) (dup integ : List Nat) : Table :=
  t.selectRows ((List.range t.nrows).filter
    (fun i => !dup.contains i && !integ.contains i))

/-! ### The format sensor (`DataConverter.parse_other_upload`) -/

/-- The classification reached by the heuristic sensing engine. -/
inductive Sensed where
  | excel
  | parquetBin
  | jsonDoc
  | pdfDoc
  | docxDoc
  | delimited (d : Char)
  | keyValue
  | unstructured
deriving DecidableEq

/-- Candidate delimiters in priority order (`parse_other_upload`, step 1). -/
def candidateDelims : List Char := [',', ';', '|', '\t']

def countChar (s : String) (c : Char) : Nat := s.toList.count c

/-- One line matched against `^([\w\s_-]+)[:=](.*)$` after stripping: since
    neither `:` nor `=` belongs to the character class, the line matches
    exactly when the maximal leading run of word/space/underscore/hyphen
    characters is non-empty and is followed by `:` or `=`; the captured
    label is that run. -/
def isKVChar (c : Char) : Bool := c.isAlphanum || c == '_' || c.isWhitespace || c == '-'

def kvLabel (line : String) : Option String :=
  let cs := (pyStrip line).data
  let p := cs.takeWhile isKVChar
  if p.isEmpty then none
  else
    match cs.drop p.length with
    | c :: _ =>
        if c == ':' || c == '=' then
          some (replaceSpace (lowerStr (pyStrip (String.mk p))))
        else none
    | [] => none

/-- The distinct normalized labels of the sample, in first-occurrence order
    (the keys of the `kv_map` dict built line by line). -/
def kvKeys (sample : String) : List String :=
  ((splitLines sample).filterMap kvLabel).foldl
    (fun acc k => if acc.contains k then acc else acc ++ [k]) []

def binaryFor (ext : String) : Option Sensed :=
  if ext == ".xlsx" || ext == ".xls" then some .excel
  else if ext == ".parquet" then some .parquetBin
  else if ext == ".json" then some .jsonDoc
  else if ext == ".pdf" then some .pdfDoc
  else if ext == ".docx" || ext == ".doc" then some .docxDoc
  else none

/-- The classification branch taken by `parse_other_upload` given the
    lowered file extension and the file text (`head = f.read(2048)`). -/
def senseFormat (ext content : String) : Sensed :=
  match binaryFor ext with
  | some k => k
  | none =>
      let head := takeChars 2048 content
      match candidateDelims.find? (fun d => 10 < countChar head d) with
      | some d => .delimited d
      | none => if 3 ≤ (kvKeys head).length then .keyValue else .unstructured

/-- The specification-side restatement of the classification: extension
    first; else the first listed delimiter whose sample count crosses 10;
    else key-value text when at least 3 distinct labels are found; else
    unstructured text. -/
def senseFormatSpec (ext content : String) : Sensed :=
  match binaryFor ext with
  | some k => k
  | none =>
      let head := takeChars 2048 content
      match (candidateDelims.filter (fun d => 10 < countChar head d)).head? with
      | some d => .delimited d
      | none =>
          if 3 ≤ (((splitLines head).filterMap kvLabel).dedup).length then .keyValue
          else .unstructured

/-! ### The API JSON extractor (`DataConverter.parse_api_json`) -/

/-- A decoded JSON payload as returned by `json.load`. -/
inductive Json where
  | null
  | bool (b : Bool)
  | num (q : Rat)
  | str (s : String)
  | arr (xs : List Json)
  | obj (kvs : List (String × Json))

/-- Python truthiness of a decoded JSON value. -/
def jtruthy : Json → Bool
  | .null => false
  | .bool b => b
  | .num q => !decide (q = 0)
  | .str s => !(s == "")
  | .arr xs => !xs.isEmpty
  | .obj kvs => !kvs.isEmpty

/-- Python `data.get(k)`: defined on a dict (absent keys give `None`), an
    `AttributeError` on any other payload shape. -/
def jsonGet (j : Json) (k : String) : Except String Json :=
  match j with
  | .obj kvs => .ok ((((kvs.find? (fun p => p.1 == k))).map (fun p => p.2)).getD .null)
  | _ => .error "AttributeError"

/-- Python `str()` of a decoded JSON scalar (container reprs are abbreviated; the
    pipeline only reaches this on non-dict records). -/
def pyStr : Json → String
  | .null => "None"
  | .bool b => if b then "True" else "False"
  | .num q => ratToStr q
  | .str s => s
  | .arr _ => "[...]"
  | .obj _ => "<dict>"

/-- A flat extracted record: column name to decoded scalar. -/
abbrev ApiRecord := List (String × Json)

/-- Dict assignment `entry[k] = v`. -/
def setKey (r : ApiRecord) (k : String) (v : Json) : ApiRecord :=
  if r.any (fun p => p.1 == k) then r.map (fun p => if p.1 == k then (k, v) else p)
  else r ++ [(k, v)]

/-- Converter `_flatten_dict` emits, per popped mapping, its scalar items (and empty
    dicts) in key order with underscore-joined paths, and pushes non-empty
    child dicts on the stack, so the most recently pushed child's whole
    subtree is processed first.  The loop's output order is therefore:
    the current level's scalars, then the children's flattenings in
    reverse key order. -/
def joinPath (parts : List String) : String := String.intercalate "_" parts

def flatEmit (path : List String) (kvs : List (String × Json)) : List (String × Json) :=
  kvs.filterMap (fun p =>
    match p.2 with
    | .obj sub => if sub.isEmpty then some (joinPath (path ++ [p.1]), Json.obj []) else none
    | v => some (joinPath (path ++ [p.1]), v))

mutual

def flattenVisit (path : List String) (kvs : List (String × Json)) :
    List (String × Json) :=
  flatEmit path kvs ++ flatChildren path kvs
termination_by (sizeOf kvs, 1)

def flatChildren (path : List String) : List (String × Json) → List (String × Json)
  | [] => []
  | (k, Json.obj sub) :: rest =>
      flatChildren path rest ++ (if sub.isEmpty then [] else flattenVisit (path ++ [k]) sub)
  | _ :: rest => flatChildren path rest
termination_by kvs => (sizeOf kvs, 0)

end

def flattenDict (kvs : List (String × Json)) : List (String × Json) :=
  flattenVisit [] kvs

/-- One standardized record of `parse_api_json`. -/
def standardizeApiRec (now : String) (rec : Json) : ApiRecord :=
  let entry : ApiRecord :=
    match rec with
    | .obj kvs => flattenDict kvs
    | other => [("value", Json.str (pyStr other))]
  setKey (setKey entry "source" (Json.str "API_Source")) "ingested_at" (Json.str now)

/-- Extractor `DataConverter.parse_api_json` applied to the outcome of `json.load` on
    the latest raw API file: a load failure is caught inside the function
    and yields `[]`, but the record-list discovery
    `data.get("data") or data.get("properties") or data` runs outside any
    handler, so a non-dict payload raises `AttributeError` past the
    function's boundary (modelled as the `.error` result). -/
def parse_api_json (loaded : Except String Json) (now : String) :
    Except String (List ApiRecord) :=
  match loaded with
  | .error _ => .ok []
  | .ok data => do
      let g1 ← jsonGet data "data"
      let records0 ←
        if jtruthy g1 then pure g1
        else do
          let g2 ← jsonGet data "properties"
          pure (if jtruthy g2 then g2 else data)
      let records := match records0 with | .arr xs => xs | other => [other]
      return records.map (standardizeApiRec now)

/-! ### The web-scrape extractor (`DataConverter.parse_city_html`) -/

/-- One `<table>` element: whether a `<thead>` is present (its header row is
    the table's first `<tr>`) and the stripped cell texts of every `<tr>`
    in document order. -/
structure HtmlTableEl where
  hasThead : Bool
  trs : List (List String)

/-- The parsed page: its tables and its `<ul>`/`<ol>` item texts. -/
structure HtmlDoc where
  tables : List HtmlTableEl
  lists : List (List String)

/-- A scraped record: an insertion-ordered dict from column name to cell
    text. -/
abbrev ScrapeRec := List (String × String)

/-- Dict assignment `entry[k] = v`: update in place or append. -/
def setKeyStr (r : ScrapeRec) (k v : String) : ScrapeRec :=
  if r.any (fun p => p.1 == k) then r.map (fun p => if p.1 == k then (k, v) else p)
  else r ++ [(k, v)]

/-- The records read from one table: header names from the header row
    (`Col_<i>` for blank headers), one record per data row (all rows when a
    `<thead>` exists, else all but the first), keeping only records with
    some non-empty value. -/
def tableRecords (now : String) (tab : HtmlTableEl) : List ScrapeRec :=
  match tab.trs with
  | [] => []
  | _ =>
      let headers := tab.trs.headD []
      let dataRows := if tab.hasThead then tab.trs else tab.trs.drop 1
      dataRows.filterMap (fun row =>
        if row.isEmpty then none
        else
          let entry := (List.range (min headers.length row.length)).foldl
            (fun acc i =>
              setKeyStr acc
                (if (headers.getD i "") != "" then headers.getD i ""
                 else "Col_" ++ toString i)
                (row.getD i "")) []
          if entry.isEmpty || entry.all (fun p => p.2 == "") then none
          else some (setKeyStr (setKeyStr entry "source" "Web_Scrape") "ingested_at" now))

def allTableRecords (now : String) (doc : HtmlDoc) : List ScrapeRec :=
  (doc.tables.map (tableRecords now)).flatten

/-- Fallback `_parse_city_html_fallback` before its final truncation: one record per
    non-empty list item, from lists with at least five items. -/
def fallbackRecords (now : String) (doc : HtmlDoc) : List ScrapeRec :=
  (doc.lists.map (fun items =>
    if items.length < 5 then []
    else items.filterMap (fun text =>
      if text == "" then none
      else some [("Item_Content", text), ("source", "Web_Scrape"), ("ingested_at", now)]))).flatten

/-- The record sequence produced by `parse_city_html` before truncation:
    the table records, or the list-item fallback when the page has no table
    or the tables yield nothing. -/
def cityHtmlUntruncated (now : String) (doc : HtmlDoc) : List ScrapeRec :=
  if doc.tables.isEmpty then fallbackRecords now doc
  else
    let s := allTableRecords now doc
    if s.isEmpty then fallbackRecords now doc else s

/-- Extractor `DataConverter.parse_city_html`: both the table path and the fallback
    path return at most the first 100 records. -/
def parse_city_html (now : String) (doc : HtmlDoc) : List ScrapeRec :=
  if doc.tables.isEmpty then (fallbackRecords now doc).take 100
  else
    let s := allTableRecords now doc
    if s.isEmpty then (fallbackRecords now doc).take 100 else s.take 100

/-! ### The pipeline controller (`run_pipeline` in `backend/main.py`) -/

/-- The stages traversed by a pipeline run. -/
inductive Step where
  | ingest
  | unify
  | remediateBulk
  | scoreInitial
  | remediateTargeted
  | scoreFinal
  | done
deriving DecidableEq, BEq

/-- The environment of one run: whether ingestion produced a raw file, and
    the unified frame produced by `unify_to_parquet` (`none` when
    unification found no data). -/
structure PipeEnv where
  ingestOk : Bool
  unified : Option Table

/-- The initial QualityReport of a run, when the run reaches the initial
    scoring stage. -/
def initialReport (env : PipeEnv) : Option Report :=
  if env.ingestOk then
    match env.unified with
    | some u =>
        match run_remediation u with
        | some cleaned => some (validate cleaned)
        | none => none
    | none => none
  else none

/-- The stage trace of `run_pipeline`: early exits on missing raw data,
    failed unification or failed remediation; otherwise the initial scoring
    always runs once, and the targeted-remediation plus re-score block runs
    exactly when the initial `overall_trustability` is below 95. -/
def pipelineTrace (env : PipeEnv) : List Step :=
  if !env.ingestOk then [.ingest]
  else
    match env.unified with
    | none => [.ingest, .unify]
    | some u =>
        match run_remediation u with
        | none => [.ingest, .unify, .remediateBulk]
        | some cleaned =>
            let r1 := validate cleaned
            if r1.overall_trustability < 95 then
              [.ingest, .unify, .remediateBulk, .scoreInitial,
               .remediateTargeted, .scoreFinal, .done]
            else [.ingest, .unify, .remediateBulk, .scoreInitial, .done]

/-- The report returned by `run_pipeline` on the modelled flow: the
    feedback pass re-reads the cleaned frame after the targeted deletions
    and re-scores it. -/
def runPipeline (env : PipeEnv) : Report :=
  if !env.ingestOk then
    { total_records := 0, overall_trustability := 0,
      status := "No Data Found for this period", dims := zeroDims,
      duplicate_indices := [], integrity_fail_indices := [] }
  else
    match env.unified with
    | none =>
        { total_records := 0, overall_trustability := 0,
          status := "Unification Failed", dims := zeroDims,
          duplicate_indices := [], integrity_fail_indices := [] }
    | some u =>
        match run_remediation u with
        | none =>
            { total_records := 0, overall_trustability := 0,
              status := "Remediation Failed", dims := zeroDims,
              duplicate_indices := [], integrity_fail_indices := [] }
        | some cleaned =>
            let r1 := validate cleaned
            if r1.overall_trustability < 95 then
              validate (targeted_remediation cleaned r1.duplicate_indices
                r1.integrity_fail_indices)
            else r1

/-! ### Concrete frames and specification-side predicates used by the
    claim theorems -/

/-- The replacement condition as the specification words it: numeric
    coercion succeeds on more than 80% of the column's non-null values. -/
def specNumericReplaceCond (c : Col) : Bool :=
  match c with
  | .str _ cs => 4 * countSome cs < 5 * countSome (toNumericStr cs)
  | .num _ _ => false

/-- A one-row frame whose column `a` holds the literal string "None": the
    bulk pass nulls it after the all-null drops already ran. -/
def t6 : Table := ⟨[.str "a" [some "None"], .str "b" [some "x"]]⟩

/-- The cleaned frame the bulk pass produces from `t6`: column `a` is now
    entirely null but still present. -/
def t6c : Table :=
  ⟨[.str "a" [none], .str "b" [some "x"],
    .str "remediation_notes" [some suspiciousText]]⟩

/-- What a second bulk pass produces from `t6c`: column `a` is dropped. -/
def t6cc : Table :=
  ⟨[.str "b" [some "x"], .str "remediation_notes" [some suspiciousText]]⟩

/-- Cells of the `name` column of the coercion counterexample frame. -/
def cs7 : List (Option String) :=
  [some "a", some "b", some "c", some "d", some "e"]

/-- Cells of the `v` column: two numeric strings, three null tokens. -/
def cs7v : List (Option String) :=
  [some "1", some "2", some "None", some "None", some "None"]

/-- Five-row frame: every non-null value of `v` coerces, but only 2 of 5
    rows do. -/
def t7 : Table := ⟨[.str "name" cs7, .str "v" cs7v]⟩

/-- The `v` column as it stands when the coercion loop examines it. -/
def vCol7 : Col := .str "v" [some "1", some "2", none, none, none]

/-- A frame with neither lineage column. -/
def tC4x : Table := ⟨[.str "a" [some "x"]]⟩

/-- Witness frame for the scoring-bounds claim. -/
def tW2 : Table :=
  ⟨[.str "source" [some "API", some "API"],
    .str "ingested_at" [some "2024-01-02", some "2024-01-02"]]⟩

/-- Witness frame for the determinism claim. -/
def tW3 : Table := ⟨[.str "source" [some "API"], .str "val" [some "7"]]⟩

/-- Witness frame for the integrity claim: only `ingested_at` present. -/
def tW4 : Table := ⟨[.str "ingested_at" [some "2024-01-02"]]⟩

/-- The seven reported dimension scores all lie within `[0, 100]`. -/
def dimsInRange (d : Dims) : Prop :=
  (0 ≤ d.completeness ∧ d.completeness ≤ 100) ∧
  (0 ≤ d.accuracy ∧ d.accuracy ≤ 100) ∧
  (0 ≤ d.validity ∧ d.validity ≤ 100) ∧
  (0 ≤ d.consistency ∧ d.consistency ≤ 100) ∧
  (0 ≤ d.uniqueness ∧ d.uniqueness ≤ 100) ∧
  (0 ≤ d.integrity ∧ d.integrity ≤ 100) ∧
  (0 ≤ d.lineage ∧ d.lineage ≤ 100)

/-! ## Claim theorems -/

/-- C3.  Scoring is deterministic: two calls of the Scorer on the same
    cleaned frame with no remediation in between return identical
    QualityReports — the same dimension values, the same
    overall_trustability, the same status, and the same duplicate indices
    in the same order.  The embedded `validate` is a pure function of the
    frame content; the source algorithm reads only the frame and performs
    no randomized sampling. -/
theorem scorer_deterministic (t : Table) (r1 r2 : Report)
    (h1 : r1 = validate t) (h2 : r2 = validate t) :
    r1 = r2 ∧ r1.dims = r2.dims ∧
      r1.overall_trustability = r2.overall_trustability ∧
      r1.status = r2.status ∧ r1.duplicate_indices = r2.duplicate_indices := by
  subst h1; subst h2; exact ⟨rfl, rfl, rfl, rfl, rfl⟩

theorem scorer_deterministic_witness :
    validate tW3 = validate tW3 ∧ (validate tW3).dims = (validate tW3).dims ∧
      (validate tW3).overall_trustability = (validate tW3).overall_trustability ∧
      (validate tW3).status = (validate tW3).status ∧
      (validate tW3).duplicate_indices = (validate tW3).duplicate_indices :=
  scorer_deterministic tW3 (validate tW3) (validate tW3) rfl rfl

/-- C6.  The claim (bulk remediation is idempotent) is right and the code is
    wrong: on the one-row frame `t6` the first bulk pass turns the literal
    "None" in column `a` into null after the all-null column drop already
    ran, so the second bulk pass drops column `a` — its output differs from
    its input. -/
theorem bulk_remediation_not_idempotent :
    run_remediation t6 = some t6c ∧ run_remediation t6c = some t6cc ∧ t6cc ≠ t6c := by
  refine ⟨by decide, by decide, by decide⟩

/-- C9.  The claim (no extraction routine ever raises past its boundary) is
    right and the code is wrong: `parse_api_json` evaluates
    `data.get("data")` outside any handler, so a well-formed JSON payload
    whose top level is an array raises `AttributeError` out of the routine,
    while a malformed payload (a `json.load` failure) is caught and yields
    the empty record sequence. -/
theorem api_json_array_raises :
    parse_api_json (.ok (.arr [.num 1, .num 2])) "2024-01-01T00:00:00" =
      .error "AttributeError" ∧
    parse_api_json (.error "malformed") "2024-01-01T00:00:00" = .ok [] :=
  ⟨rfl, rfl⟩

/-- C10.  The web-scrape extractor returns at most 100 records for every
    page: both the table path and the list-item fallback return exactly the
    first 100 of the untruncated record sequence, silently dropping the
    rest. -/
theorem city_html_truncates (now : String) (doc : HtmlDoc) :
    parse_city_html now doc = (cityHtmlUntruncated now doc).take 100 ∧
      (parse_city_html now doc).length ≤ 100 := by
  constructor
  · unfold parse_city_html cityHtmlUntruncated
    by_cases h : doc.tables.isEmpty
    · simp [h]
    · simp only [h, if_neg]
      by_cases h2 : (allTableRecords now doc).isEmpty <;> simp [h2]
  · unfold parse_city_html
    by_cases h : doc.tables.isEmpty
    · simp [h, List.length_take]
    · simp only [h]
      by_cases h2 : (allTableRecords now doc).isEmpty <;>
        simp [h2, List.length_take]

/-- C1.  In every pipeline run, the targeted-remediation pass and the
    re-score each occur exactly once when the run reaches the initial
    scoring and the initial report's overall_trustability is strictly below
    95, and never otherwise; in particular at most one targeted-remediation
    plus re-score cycle occurs per run, whatever the re-score returns. -/
theorem feedback_loop_bound (env : PipeEnv) :
    ((pipelineTrace env).count .remediateTargeted =
      match initialReport env with
      | some r => if r.overall_trustability < 95 then 1 else 0
      | none => 0) ∧
    ((pipelineTrace env).count .scoreFinal =
      match initialReport env with
      | some r => if r.overall_trustability < 95 then 1 else 0
      | none => 0) ∧
    (pipelineTrace env).count .remediateTargeted ≤ 1 := by
  obtain ⟨ing, u?⟩ := env
  cases ing
  · refine ⟨?_, ?_, ?_⟩ <;> simp [pipelineTrace, initialReport] <;> decide
  · cases u? with
    | none => refine ⟨?_, ?_, ?_⟩ <;> simp [pipelineTrace, initialReport] <;> decide
    | some u =>
        cases hr : run_remediation u with
        | none =>
            refine ⟨?_, ?_, ?_⟩ <;> simp [pipelineTrace, initialReport, hr] <;> decide
        | some cleaned =>
            by_cases hs : (validate cleaned).overall_trustability < 95 <;>
              refine ⟨?_, ?_, ?_⟩ <;>
              simp [pipelineTrace, initialReport, hr, hs] <;> decide

/-- C7 counterexample.  The claim (a column is numeric-coerced iff coercion
    succeeds on more than 80% of its non-null values) fails on `t7`: when
    the coercion loop examines column `v` it holds 2 non-null values, both
    of which coerce (100% > 80%), yet `generic_cleanup` leaves the column
    uncoerced, because the code divides the success count by `len(df)` = 5. -/
theorem numeric_coercion_not_nonnull_based :
    (stringNorm (dropAllNullCols (dropAllNullRows t7))).cols.get? 1 = some vCol7 ∧
    specNumericReplaceCond vCol7 = true ∧
    (generic_cleanup t7).cols.get? 1 = some vCol7 ∧
    vCol7.isNum = false := by
  refine ⟨by decide, by decide, by decide, by decide⟩

/-- C7 as amended.  In the bulk Remediator, a non-metadata object column is
    replaced by its numeric coercion (coercion failures becoming null) if
    and only if the coercion succeeds on more than 80% of the frame's total
    row count (nulls counting against the threshold, not excluded from
    it). -/
theorem numeric_coercion_threshold (t : Table) (i : Nat) (nm : String)
    (cs : List (Option String)) (h : t.cols.get? i = some (.str nm cs))
    (hm : meta3.contains nm = false) :
    (numericCoercion t).cols.get? i =
      some (if 4 * t.nrows < 5 * countSome (toNumericStr cs)
            then Col.num nm (toNumericStr cs) else Col.str nm cs) := by
  have hnm : ¬ nm ∈ meta3 := by simp at hm; exact hm
  unfold numericCoercion
  simp only [List.get?_eq_getElem?, List.getElem?_map] at h ⊢
  rw [h]
  unfold coerceCol
  simp [hnm]

theorem numeric_coercion_threshold_witness :
    (numericCoercion t7).cols.get? 0 =
      some (if 4 * t7.nrows < 5 * countSome (toNumericStr cs7)
            then Col.num "name" (toNumericStr cs7) else Col.str "name" cs7) :=
  numeric_coercion_threshold t7 0 "name" cs7 (by decide) (by decide)

/-- Either branch structure of one drop action (skip on an empty index
    list, drop only the listed labels still present) equals a plain filter
    against the listed labels. -/
theorem dropStepEq (idx ds : List Nat) :
    (if ds.isEmpty then idx
     else if (ds.filter (fun i => idx.contains i)).isEmpty then idx
     else idx.filter (fun i => !(ds.filter (fun j => idx.contains j)).contains i)) =
    idx.filter (fun i => !ds.contains i) := by
  by_cases h : ds.isEmpty
  · rw [List.isEmpty_iff] at h
    subst h
    simp
  · rw [if_neg h]
    by_cases h2 : (ds.filter (fun i => idx.contains i)).isEmpty
    · rw [if_pos h2]
      rw [List.isEmpty_iff, List.filter_eq_nil_iff] at h2
      symm
      apply List.filter_eq_self.mpr
      intro a ha
      simp only [List.elem_eq_mem, Bool.not_eq_eq_eq_not, Bool.not_true,
        decide_eq_false_iff_not]
      intro hmem
      exact h2 a hmem (by simp [ha])
    · rw [if_neg h2]
      apply List.filter_congr
      intro a ha
      simp [List.elem_eq_mem, List.mem_filter, ha]

/-- C5.  For every stored cleaned frame and every issue metadata from a
    prior report, the targeted pass deletes exactly the listed row labels
    still present (sequentially: duplicates, then integrity failures);
    labels no longer present are silently ignored, every unlisted row is
    kept verbatim and in order, and no other normalization is applied. -/
theorem targeted_remediation_exact (t : Table) (dup integ : List Nat) :
    targeted_remediation t dup integ = keepUnlistedRows t dup integ := by
  unfold targeted_remediation keepUnlistedRows
  dsimp only
  rw [dropStepEq (List.range t.nrows) dup, dropStepEq _ integ, List.filter_filter]
  congr 1
  apply List.filter_congr
  intro a _
  rw [Bool.and_comm]

/-- Folding list elements into an accumulator that skips already-present
    elements keeps the accumulator duplicate-free and accumulates exactly
    the elements seen (the dict build of `kv_map`). -/
theorem foldDedupInvariant (l : List String) : ∀ acc : List String, acc.Nodup →
    (l.foldl (fun acc k => if acc.contains k then acc else acc ++ [k]) acc).Nodup ∧
    (l.foldl (fun acc k => if acc.contains k then acc else acc ++ [k]) acc).toFinset =
      acc.toFinset ∪ l.toFinset := by
  induction l with
  | nil => intro acc hacc; simp [hacc]
  | cons x xs ih =>
      intro acc hacc
      simp only [List.foldl_cons]
      by_cases hx : acc.contains x
      · have hmem : x ∈ acc := by simpa using hx
        rw [if_pos hx]
        obtain ⟨hn, hf⟩ := ih acc hacc
        refine ⟨hn, ?_⟩
        rw [hf]
        ext b
        simp only [Finset.mem_union, List.mem_toFinset, List.mem_cons]
        constructor
        · rintro (hb | hb)
          · exact Or.inl hb
          · exact Or.inr (Or.inr hb)
        · rintro (hb | hb | hb)
          · exact Or.inl hb
          · exact Or.inl (hb ▸ hmem)
          · exact Or.inr hb
      · have hmem : ¬ x ∈ acc := by simpa using hx
        rw [if_neg hx]
        have hnodup : (acc ++ [x]).Nodup := by
          refine List.Nodup.append hacc (List.nodup_singleton x) ?_
          intro b hb hb2
          simp only [List.mem_singleton] at hb2
          exact hmem (hb2 ▸ hb)
        obtain ⟨hn, hf⟩ := ih (acc ++ [x]) hnodup
        refine ⟨hn, ?_⟩
        rw [hf]
        ext b
        simp only [Finset.mem_union, List.mem_toFinset, List.mem_append,
          List.mem_singleton, List.mem_cons]
        tauto

/-- The dict-based distinct-label count equals the count of deduplicated
    labels. -/
theorem foldDedupLength (l : List String) :
    (l.foldl (fun acc k => if acc.contains k then acc else acc ++ [k]) []).length =
      l.dedup.length := by
  obtain ⟨hn, hf⟩ := foldDedupInvariant l [] List.nodup_nil
  rw [← List.toFinset_card_of_nodup hn, hf]
  simp [List.card_toFinset]

/-- C8.  The format sensor for unrecognized uploads classifies in strict
    first-match priority: a known binary/document extension is
    authoritative; else the sample is a delimited table under the first
    listed delimiter occurring more than 10 times in the first 2KB; else
    key-value text when at least 3 distinct labels match; else unstructured
    text — so a sample matching both the delimiter and key-value heuristics
    is a delimited table. -/
theorem sensor_priority (ext content : String) :
    senseFormat ext content = senseFormatSpec ext content := by
  unfold senseFormat senseFormatSpec
  cases hb : binaryFor ext with
  | some k => rfl
  | none =>
      dsimp only
      rw [List.filter_head?]
      cases hd : candidateDelims.find? (fun d => 10 < countChar (takeChars 2048 content) d) with
      | some d => rfl
      | none =>
          unfold kvKeys
          rw [foldDedupLength]

/-! Bounds machinery for the scoring claims. -/

theorem pct_bounds (a b : Nat) (h : a ≤ b) : 0 ≤ pctOf a b ∧ pctOf a b ≤ 100 := by
  unfold pctOf
  rcases Nat.eq_zero_or_pos b with hb | hb
  · subst hb
    have : a = 0 := Nat.le_zero.mp h
    subst this
    norm_num
  · have hb' : (0 : Rat) < b := by exact_mod_cast hb
    constructor
    · positivity
    · rw [div_le_iff hb']
      have hab : (a : Rat) ≤ (b : Rat) := by exact_mod_cast h
      nlinarith

theorem score_bounds (a b : Nat) (h : a ≤ b) :
    0 ≤ 100 - pctOf a b ∧ 100 - pctOf a b ≤ 100 := by
  obtain ⟨h1, h2⟩ := pct_bounds a b h
  constructor <;> linarith

theorem notNullScore_bounds (c : Col) : 0 ≤ notNullScore c ∧ notNullScore c ≤ 100 := by
  unfold notNullScore
  apply score_bounds
  cases c <;> exact List.countP_le_length _

theorem accuracyScoreOfVals_bounds (vals : List Rat) :
    0 ≤ accuracyScoreOfVals vals ∧ accuracyScoreOfVals vals ≤ 100 := by
  unfold accuracyScoreOfVals
  apply score_bounds
  exact List.countP_le_length _

theorem consistencyScoreCol_bounds (c : Col) :
    0 ≤ consistencyScoreCol c ∧ consistencyScoreCol c ≤ 100 := by
  unfold consistencyScoreCol
  cases c
  · apply score_bounds
    exact List.countP_le_length _
  · apply score_bounds
    exact le_refl _

theorem rows_length (t : Table) : t.rows.length = t.nrows := by
  unfold Table.rows
  simp

theorem uniquenessScore_bounds (t : Table) :
    0 ≤ uniquenessScore t ∧ uniquenessScore t ≤ 100 := by
  unfold uniquenessScore
  by_cases h : 0 < t.nrows
  · rw [if_pos h]
    have hc : dupAllCount t ≤ t.nrows := by
      unfold dupAllCount
      calc (t.rows).countP _ ≤ t.rows.length := List.countP_le_length _
        _ = t.nrows := rows_length t
    have hn : (0 : Rat) < t.nrows := by exact_mod_cast h
    have hc' : (dupAllCount t : Rat) ≤ (t.nrows : Rat) := by exact_mod_cast hc
    have hc0 : (0 : Rat) ≤ (dupAllCount t : Rat) := by positivity
    constructor
    · apply mul_nonneg _ (by norm_num)
      apply div_nonneg _ (le_of_lt hn)
      linarith
    · have hfrac : ((t.nrows : Rat) - dupAllCount t) / t.nrows ≤ 1 := by
        rw [div_le_one hn]
        linarith
      have hfrac0 : 0 ≤ ((t.nrows : Rat) - dupAllCount t) / t.nrows := by
        apply div_nonneg _ (le_of_lt hn)
        linarith
      nlinarith
  · rw [if_neg h]
    norm_num

theorem lineageScore_bounds (t : Table) : 0 ≤ lineageScore t ∧ lineageScore t ≤ 100 := by
  unfold lineageScore
  cases t.findCol "source" with
  | none => norm_num
  | some c =>
      apply score_bounds
      cases c <;> exact List.countP_le_length _

theorem dimAvg_bounds (l : List Rat) (h : ∀ x ∈ l, 0 ≤ x ∧ x ≤ 100) :
    0 ≤ dimAvg l ∧ dimAvg l ≤ 100 := by
  unfold dimAvg
  by_cases he : l.isEmpty
  · rw [if_pos he]
    norm_num
  · rw [if_neg he]
    have hne : l ≠ [] := by
      intro hl
      subst hl
      exact he rfl
    have hl : 0 < l.length := List.length_pos.mpr hne
    have hl' : (0 : Rat) < l.length := by exact_mod_cast hl
    constructor
    · apply div_nonneg _ (le_of_lt hl')
      apply List.sum_nonneg
      intro x hx
      exact (h x hx).1
    · rw [div_le_iff hl']
      calc l.sum ≤ l.length • (100 : Rat) :=
            List.sum_le_card_nsmul l 100 (fun x hx => (h x hx).2)
        _ = 100 * l.length := by
            rw [nsmul_eq_mul]
            ring

theorem rhe_bounds (x : Rat) (h0 : 0 ≤ x) (h1 : x ≤ 10000) :
    (0 : Int) ≤ rhe x ∧ rhe x ≤ 10000 := by
  unfold rhe
  by_cases ht : x - ⌊x⌋ = 1/2
  · have hf0 : (0 : Int) ≤ ⌊x⌋ := Int.floor_nonneg.mpr h0
    have hfq : (⌊x⌋ : Rat) < 10000 := by
      have : (⌊x⌋ : Rat) = x - 1/2 := by linarith
      linarith
    have hf1 : ⌊x⌋ < (10000 : Int) := by exact_mod_cast hfq
    rw [if_pos ht]
    split_ifs <;> omega
  · rw [if_neg ht, round_eq]
    constructor
    · rw [Int.le_floor]
      push_cast
      linarith
    · have : ⌊x + 1/2⌋ < (10001 : Int) := by
        rw [Int.floor_lt]
        push_cast
        linarith
      omega

theorem round2_bounds (q : Rat) (h0 : 0 ≤ q) (h1 : q ≤ 100) :
    0 ≤ round2 q ∧ round2 q ≤ 100 := by
  obtain ⟨hr0, hr1⟩ := rhe_bounds (100 * q) (by positivity) (by linarith)
  unfold round2
  constructor
  · apply div_nonneg _ (by norm_num)
    exact_mod_cast hr0
  · rw [div_le_iff (by norm_num : (0 : Rat) < 100)]
    have hcast : (rhe (100 * q) : Rat) ≤ 10000 := by exact_mod_cast hr1
    linarith

theorem suiteScores_bounds (t : Table) : dimsInRange (suiteScores t) := by
  unfold suiteScores dimsInRange
  refine ⟨?_, ?_, ?_, ?_, ?_, ?_, ?_⟩
  · apply dimAvg_bounds
    intro x hx
    unfold completenessScores at hx
    obtain ⟨c, _, rfl⟩ := List.mem_map.mp hx
    exact notNullScore_bounds c
  · apply dimAvg_bounds
    intro x hx
    unfold accuracyScores at hx
    obtain ⟨c, _, hc⟩ := List.mem_filterMap.mp hx
    cases c with
    | str nm cs => exact Option.noConfusion hc
    | num nm cs =>
        dsimp only at hc
        by_cases hg : accuracyApplies t.nrows (cs.filterMap id)
        · rw [if_pos hg] at hc
          obtain rfl := Option.some_injective _ hc
          exact accuracyScoreOfVals_bounds _
        · rw [if_neg hg] at hc
          exact Option.noConfusion hc
  · apply dimAvg_bounds
    intro x hx
    unfold validityScores at hx
    rcases List.mem_append.mp hx with hx | hx <;>
      obtain ⟨c, _, hc⟩ := List.mem_filterMap.mp hx <;>
      by_cases hn : c.isNum <;> simp [hn] at hc <;> rw [← hc] <;> norm_num
  · apply dimAvg_bounds
    intro x hx
    unfold consistencyScores at hx
    obtain ⟨c, _, rfl⟩ := List.mem_map.mp hx
    exact consistencyScoreCol_bounds c
  · apply dimAvg_bounds
    intro x hx
    rw [List.mem_singleton] at hx
    subst hx
    exact uniquenessScore_bounds t
  · apply dimAvg_bounds
    intro x hx
    unfold integrityScores at hx
    simp only [List.mem_cons, List.not_mem_nil, or_false] at hx
    rcases hx with rfl | rfl <;> split_ifs <;> norm_num
  · apply dimAvg_bounds
    intro x hx
    rw [List.mem_singleton] at hx
    subst hx
    exact lineageScore_bounds t

theorem rawDims_bounds (t : Table) : dimsInRange (rawDims t) := by
  unfold rawDims
  by_cases hc : t.ncols = 0
  · rw [if_pos hc]
    unfold dimsInRange zeroDims
    norm_num
  · rw [if_neg hc]
    exact suiteScores_bounds t

/-- C2.  For every non-empty frame, each of the seven reported dimension
    scores lies in `[0, 100]`, and overall_trustability is the unweighted
    arithmetic mean of the seven computed dimension scores rounded to two
    decimal places. -/
theorem scorer_dimension_contract (t : Table) (h : 0 < t.nrows) :
    dimsInRange (validate t).dims ∧
      (validate t).overall_trustability = round2 (sumDims (rawDims t) / 7) := by
  have hn : ¬ t.nrows = 0 := Nat.pos_iff_ne_zero.mp h
  obtain ⟨⟨a1, a2⟩, ⟨b1, b2⟩, ⟨c1, c2⟩, ⟨d1, d2⟩, ⟨e1, e2⟩, ⟨f1, f2⟩, ⟨g1, g2⟩⟩ :=
    rawDims_bounds t
  constructor
  · simp only [validate, if_neg hn, dimsInRange]
    exact ⟨round2_bounds _ a1 a2, round2_bounds _ b1 b2, round2_bounds _ c1 c2,
      round2_bounds _ d1 d2, round2_bounds _ e1 e2, round2_bounds _ f1 f2,
      round2_bounds _ g1 g2⟩
  · simp only [validate, if_neg hn]

theorem scorer_dimension_contract_witness :
    dimsInRange (validate tW2).dims ∧
      (validate tW2).overall_trustability = round2 (sumDims (rawDims tW2) / 7) :=
  scorer_dimension_contract tW2 (by decide)

/-! Evaluation lemmas for rounding and averaging at integral scores. -/

theorem rhe_intCast (z : Int) : rhe (z : Rat) = z := by
  unfold rhe
  rw [Int.floor_intCast]
  have hz : (z : Rat) - z = 0 := by ring
  rw [hz, if_neg (by norm_num), round_intCast]

theorem round2_intCast (z : Int) : round2 (z : Rat) = z := by
  unfold round2
  have h100 : (100 : Rat) * z = ((100 * z : Int) : Rat) := by push_cast; ring
  rw [h100, rhe_intCast]
  push_cast
  field_simp

theorem dimAvg_pair (a b : Rat) : dimAvg [a, b] = (a + b) / 2 := by
  simp [dimAvg]

theorem dimAvg_single (a : Rat) : dimAvg [a] = a := by
  simp [dimAvg]

theorem round2_zero : round2 0 = 0 := by
  have := round2_intCast 0
  simpa using this

theorem round2_50 : round2 50 = 50 := by
  have := round2_intCast 50
  simpa using this

theorem round2_100 : round2 100 = 100 := by
  have := round2_intCast 100
  simpa using this

theorem findCol_none (t : Table) (n : String) (h : t.hasCol n = false) :
    t.findCol n = none := by
  unfold Table.hasCol at h
  unfold Table.findCol
  rw [List.find?_eq_none]
  intro c hc
  simp only [List.any_eq_false] at h
  simp [h c hc]

/-- C4 counterexample.  The claim says Integrity equals 50 whenever the two
    lineage columns are not both present; on a frame missing both, the code
    scores each `expect_column_to_exist` check 0 and averages them, so
    Integrity is 0, not 50. -/
theorem integrity_zero_when_both_absent :
    tC4x.hasCol "source" = false ∧ tC4x.hasCol "ingested_at" = false ∧
      (validate tC4x).dims.integrity = 0 ∧ ¬ (validate tC4x).dims.integrity = 50 := by
  have h1 : tC4x.hasCol "source" = false := by decide
  have h2 : tC4x.hasCol "ingested_at" = false := by decide
  have hn : ¬ tC4x.nrows = 0 := by decide
  have hc : ¬ tC4x.ncols = 0 := by decide
  have hint : (validate tC4x).dims.integrity = 0 := by
    simp only [validate, if_neg hn, rawDims, if_neg hc, suiteScores, integrityScores,
      h1, h2, Bool.false_eq_true, if_false]
    rw [dimAvg_pair]
    have hz : ((0 : Rat) + 0) / 2 = 0 := by norm_num
    rw [hz, round2_zero]
  exact ⟨h1, h2, hint, by rw [hint]; norm_num⟩

/-- C4 as amended.  For every non-empty frame the Integrity dimension is 50
    per present lineage column: 100 when `source` and `ingested_at` are both
    present, 50 when exactly one is, 0 when neither is; in particular a
    frame missing only `source` scores Integrity 50 and Lineage 0. -/
theorem integrity_presence_count (t : Table) (h1 : 0 < t.nrows) (h2 : 0 < t.ncols) :
    (validate t).dims.integrity =
      50 * ((if t.hasCol "source" then (1 : Rat) else 0) +
            (if t.hasCol "ingested_at" then (1 : Rat) else 0)) ∧
    (t.hasCol "source" = false → (validate t).dims.lineage = 0) := by
  have hn : ¬ t.nrows = 0 := Nat.pos_iff_ne_zero.mp h1
  have hc : ¬ t.ncols = 0 := Nat.pos_iff_ne_zero.mp h2
  constructor
  · simp only [validate, if_neg hn, rawDims, if_neg hc, suiteScores, integrityScores]
    by_cases hs : t.hasCol "source" <;> by_cases hi : t.hasCol "ingested_at" <;>
      simp only [hs, hi, if_true, if_false, Bool.false_eq_true, dimAvg_pair]
    · have hx : ((100 : Rat) + 100) / 2 = 100 := by norm_num
      rw [hx, round2_100]
      norm_num
    · have hx : ((100 : Rat) + 0) / 2 = 50 := by norm_num
      rw [hx, round2_50]
      norm_num
    · have hx : ((0 : Rat) + 100) / 2 = 50 := by norm_num
      rw [hx, round2_50]
      norm_num
    · have hx : ((0 : Rat) + 0) / 2 = 0 := by norm_num
      rw [hx, round2_zero]
      norm_num
  · intro hs0
    have hfind := findCol_none t "source" hs0
    simp only [validate, if_neg hn, rawDims, if_neg hc, suiteScores, lineageScore, hfind,
      dimAvg_single]
    exact round2_zero

theorem integrity_presence_count_witness :
    (validate tW4).dims.integrity =
      50 * ((if tW4.hasCol "source" then (1 : Rat) else 0) +
            (if tW4.hasCol "ingested_at" then (1 : Rat) else 0)) ∧
    (tW4.hasCol "source" = false → (validate tW4).dims.lineage = 0) :=
  integrity_presence_count tW4 (by decide) (by decide)

end Gesix
